import Mathlib

/-!
Shallow embedding of the `posts` app of the hw05_final blogging platform
(`src/posts/models.py`, `src/posts/forms.py`, `src/posts/views.py`).

Users are identified by their primary key (a `Nat`); the unique username is
identified with that key, since every lookup in the views resolves a username
to exactly one user.  Timestamps (`auto_now_add` fields) are modelled by a
strictly increasing per-database counter `clock`: each row creation stamps the
current clock value and bumps it, reflecting that `auto_now_add` assigns the
current time exactly once, at insertion.
-/

namespace Hw05

/-- `Group` model (models.py): title, unique slug, description. -/
structure Group where
  id : Nat
  title : String
  slug : String
  description : String
deriving DecidableEq

/-- `Post` model (models.py): text, `pub_date` (`auto_now_add`), required
author FK (CASCADE), optional group FK (SET_NULL), optional image. -/
structure Post where
  id : Nat
  text : String
  pub_date : Nat
  author : Nat
  group : Option Nat
  image : Option String
deriving DecidableEq

/-- `Comment` model (models.py): required post FK (CASCADE), required author
FK (CASCADE), text, `created` (`auto_now_add`). -/
structure Comment where
  id : Nat
  post : Nat
  author : Nat
  text : String
  created : Nat
deriving DecidableEq

/-- `Follow` model (models.py): `author` is the followed user, `user` the
follower; `unique_together ('author', 'user')`. -/
structure Follow where
  author : Nat
  user : Nat
deriving DecidableEq

/-- The persistent state: the four tables plus the external `User` table
(only ids are relevant to this core) and the creation clock. -/
structure DB where
  users : List Nat
  groups : List Group
  posts : List Post
  comments : List Comment
  follows : List Follow
  clock : Nat
deriving DecidableEq

/-- `Post.Meta.ordering = ('-pub_date',)`: `a` may come before `b` exactly
when `a` is at least as new. -/
def newerFirst (a b : Post) : Prop := b.pub_date ≤ a.pub_date

instance : DecidableRel newerFirst := fun a b => Nat.decLe b.pub_date a.pub_date

instance : IsTotal Post newerFirst := ⟨fun a b => Nat.le_total b.pub_date a.pub_date⟩

instance : IsTrans Post newerFirst := ⟨fun _ _ _ hab hbc => Nat.le_trans hbc hab⟩

/-- The ordering the ORM applies to every `Post` queryset
(`ordering = ('-pub_date',)`): newest publication date first. -/
def orderByPubDateDesc (ps : List Post) : List Post := ps.insertionSort newerFirst

/-- How the views receive `request.GET.get('page')`: the parameter is absent,
or present but not parseable as an integer, or an integer. -/
inductive PageParam
  | absent
  | notAnInteger
  | int (n : Int)
deriving DecidableEq

/-- `django.core.paginator.Paginator.num_pages` with `orphans = 0` and
`allow_empty_first_page = True`: `ceil (max 1 count / per)`. -/
def numPages (count per : Nat) : Nat := max 1 ((count + per - 1) / per)

/-- `Paginator.get_page`: `validate_number` raises `PageNotAnInteger` for a
non-integer (caught: page 1) and `EmptyPage` for an integer below 1 or above
`num_pages` (caught: the last page). -/
def getPageNumber (np : Nat) : PageParam → Nat
  | .absent => 1
  | .notAnInteger => 1
  | .int n => if n < 1 then np else if (np : Int) < n then np else n.toNat

/-- The page object handed to the template context: its 1-based number, its
slice of the object list, and the paginator's page count. -/
structure Page where
  number : Nat
  object_list : List Post
  num_pages : Nat
deriving DecidableEq

/-- `Paginator(object_list, per).get_page(param)` as used by every feed view. -/
def get_page (ps : List Post) (per : Nat) (param : PageParam) : Page :=
  let np := numPages ps.length per
  let n := getPageNumber np param
  { number := n
    object_list := (ps.drop ((n - 1) * per)).take per
    num_pages := np }

/-- `index` (views.py): `Post.objects.all()` under the model ordering, paged
by 10. -/
def index (db : DB) (param : PageParam) : Page :=
  get_page (orderByPubDateDesc db.posts) 10 param

/-- `Follow.objects.filter(user=request.user)` (views.py, `follow_index`). -/
def followsOf (db : DB) (u : Nat) : List Follow :=
  db.follows.filter (fun f => f.user == u)

/-- `Post.objects.filter(author__following__in=followings)` (views.py,
`follow_index`): the posts whose author has a `Follow` row (via the
`following` related name on `Follow.author`) among the requesting user's
follow edges, under the model ordering. -/
def follow_index_posts (db : DB) (u : Nat) : List Post :=
  orderByPubDateDesc
    (db.posts.filter (fun p => (followsOf db u).any (fun f => f.author == p.author)))

/-- `follow_index` (views.py): the following feed, paged by 10. -/
def follow_index (db : DB) (u : Nat) (param : PageParam) : Page :=
  get_page (follow_index_posts db u) 10 param

/-- The single error kind raised by model/form validation. -/
inductive ValidationError
  | required
  | invalidChoice
  | nullAuthor
deriving DecidableEq

/-- Python's `str.strip()` as Django's `CharField.clean` applies it: remove
leading and trailing whitespace. -/
def strip (s : String) : String :=
  ⟨((s.data.dropWhile Char.isWhitespace).reverse.dropWhile Char.isWhitespace).reverse⟩

/-- Cleaning of a required `CharField`-backed form field (`PostForm.text`,
`CommentForm.text`): an unbound form (`request.POST or None` gave `None`)
never validates, and a bound value is stripped and must be non-empty. On
failure the form records a `ValidationError` and `is_valid()` is false. -/
def clean_required_text (data : Option String) : Except ValidationError String :=
  match data with
  | none => .error .required
  | some t => if strip t = "" then .error .required else .ok (strip t)

/-- Cleaning of `PostForm.group` (a `ModelChoiceField` over `Group`): empty
is allowed (`blank=True, null=True`); a value must name an existing group. -/
def clean_group (db : DB) : Option Nat → Except ValidationError (Option Nat)
  | none => .ok none
  | some g =>
    if db.groups.any (fun gr => gr.id == g) then .ok (some g)
    else .error .invalidChoice

/-- `new_post` (views.py): if `PostForm` validates, save the post with
`author = request.user`; otherwise re-render the form and change nothing.
`pub_date` and the primary key are assigned at save time from the clock. -/
def new_post (db : DB) (u : Nat) (text : Option String) (group : Option Nat)
    (image : Option String) : DB :=
  match clean_required_text text, clean_group db group with
  | .ok t, .ok g =>
    { db with
      posts := db.posts ++
        [{ id := db.clock, text := t, pub_date := db.clock, author := u,
           group := g, image := image }]
      clock := db.clock + 1 }
  | _, _ => db

/-- `post_edit` (views.py), state effect only: a requester other than the
named author is redirected away; otherwise, when `PostForm` validates against
the existing instance, the post's `text`, `group` and `image` fields are
updated in place. `pub_date` is `auto_now_add` and is not written on save. -/
def post_edit (db : DB) (u : Nat) (username : Nat) (post_id : Nat)
    (text : Option String) (group : Option Nat) (image : Option String) : DB :=
  if u ≠ username then db
  else
    match clean_required_text text, clean_group db group with
    | .ok t, .ok g =>
      { db with
        posts := db.posts.map (fun p =>
          if p.id == post_id && p.author == username then
            { p with text := t, group := g, image := image }
          else p) }
    | _, _ => db

/-- Creation of a `Post` at the persistence boundary (models.py): Django's
`full_clean` raises `ValidationError` when the `blank=False` field `text` is
empty and when the `null=False` foreign key `author` is absent; only a clean
row is inserted. An `Except.error` result carries no database, so nothing is
stored in that case. -/
def create_post (db : DB) (text : String) (author : Option Nat)
    (group : Option Nat) (image : Option String) : Except ValidationError DB :=
  if text = "" then .error .required
  else
    match author with
    | none => .error .nullAuthor
    | some a =>
      .ok { db with
            posts := db.posts ++
              [{ id := db.clock, text := text, pub_date := db.clock,
                 author := a, group := group, image := image }]
            clock := db.clock + 1 }

/-- `Follow.objects.filter(user=..., author=...).exists()` (views.py). -/
def follow_exists (db : DB) (u a : Nat) : Bool :=
  db.follows.any (fun f => f.user == u && f.author == a)

/-- The number of follow edges from `u` to `a` in the table. -/
def countFollow (db : DB) (u a : Nat) : Nat :=
  (db.follows.filter (fun f => f.user == u && f.author == a)).length

/-- `profile_follow` (views.py): resolve the author by username (404 when
absent, modelled as `none`); create the edge only when no edge exists yet and
the author is not the requester; then redirect. -/
def profile_follow (db : DB) (u a : Nat) : Option DB :=
  if a ∈ db.users then
    some
      (if follow_exists db u a = false ∧ a ≠ u then
        { db with follows := db.follows ++ [{ author := a, user := u }] }
      else db)
  else none

/-- `profile_unfollow` (views.py): resolve the author by username (404 when
absent), delete whatever matching edges exist (possibly none), redirect. -/
def profile_unfollow (db : DB) (u a : Nat) : Option DB :=
  if a ∈ db.users then
    some { db with
           follows := db.follows.filter (fun f => !(f.user == u && f.author == a)) }
  else none

/-- `add_comment` (views.py): resolve the post by id and author username (404
when absent); if `CommentForm` validates, save a comment with
`author = request.user` and `post = post`; either way redirect to the post. -/
def add_comment (db : DB) (u : Nat) (username : Nat) (post_id : Nat)
    (text : Option String) : Option DB :=
  if db.posts.any (fun p => p.id == post_id && p.author == username) then
    some
      (match clean_required_text text with
       | .ok t =>
         { db with
           comments := db.comments ++
             [{ id := db.clock, post := post_id, author := u, text := t,
                created := db.clock }]
           clock := db.clock + 1 }
       | .error _ => db)
  else none

/-- What a view hands back to the routing boundary. -/
inductive ViewResult
  | notFound
  | rendered (tmpl : String)
  | missingResponse
deriving DecidableEq

/-- `post_view` (views.py): resolve the user then the post (404 when either
is absent); when the bound `CommentForm` does not validate, render
`post.html`; when it does validate the function body ends without any
`return`, so the view produces no response at all. -/
def post_view (db : DB) (username : Nat) (post_id : Nat)
    (formText : Option String) : ViewResult :=
  if username ∈ db.users then
    if db.posts.any (fun p => p.id == post_id && p.author == username) then
      match clean_required_text formText with
      | .error _ => .rendered "post.html"
      | .ok _ => .missingResponse
    else .notFound
  else .notFound

/-- Deletion of a `User` row under the `on_delete` rules of models.py:
`Post.author`, `Comment.author`, `Follow.author` and `Follow.user` are all
CASCADE, and `Comment.post` is CASCADE, so comments die with their post. -/
def delete_user (db : DB) (u : Nat) : DB :=
  { users := db.users.filter (fun x => !(x == u))
    groups := db.groups
    posts := db.posts.filter (fun p => !(p.author == u))
    comments := db.comments.filter (fun c =>
      !(c.author == u) && !(db.posts.any (fun p => p.id == c.post && p.author == u)))
    follows := db.follows.filter (fun f => !(f.user == u) && !(f.author == u))
    clock := db.clock }

/-- Deletion of a `Group` row: `Post.group` is SET_NULL, so every dependent
post survives with its group reference cleared and no other field touched. -/
def delete_group (db : DB) (g : Nat) : DB :=
  { db with
    groups := db.groups.filter (fun x => !(x.id == g))
    posts := db.posts.map (fun p =>
      if p.group = some g then { p with group := none } else p) }

/-- A concrete state: one user who has published one post. -/
def dbOnePost : DB :=
  { users := [1]
    groups := []
    posts := [{ id := 1, text := "p", pub_date := 0, author := 1, group := none,
                image := none }]
    comments := []
    follows := []
    clock := 1 }

/-- A concrete state with eleven posts, so the global feed has two pages. -/
def dbElevenPosts : DB :=
  { users := [1]
    groups := []
    posts := (List.range 11).map (fun k =>
      { id := k, text := "t", pub_date := k, author := 1, group := none,
        image := none })
    comments := []
    follows := []
    clock := 11 }

/-- Modelled from the spec: pages are 1-based, so a page parameter is a valid
page reference only when it is an integer that is at least 1; an absent,
non-integer, or out-of-domain parameter is invalid. -/
def specPageParamValid : PageParam → Bool
  | PageParam.int n => decide (1 ≤ n)
  | _ => false

/-- A follow edge matches its own (user, author) pair. -/
theorem countFollow_append_self (db : DB) (u a : Nat) :
    countFollow { db with follows := db.follows ++ [{ author := a, user := u }] } u a
      = countFollow db u a + 1 := by
  simp [countFollow, List.filter_append]

/-- `exists()` on the follow queryset is equivalent to a positive edge count. -/
theorem follow_exists_iff (db : DB) (u a : Nat) :
    follow_exists db u a = true ↔ 0 < countFollow db u a := by
  unfold follow_exists countFollow
  rw [List.any_eq_true, List.length_pos_iff_exists_mem]
  constructor
  · rintro ⟨f, hf, hp⟩
    exact ⟨f, List.mem_filter.mpr ⟨hf, hp⟩⟩
  · rintro ⟨f, hf⟩
    obtain ⟨hmem, hp⟩ := List.mem_filter.mp hf
    exact ⟨f, hmem, hp⟩

/-- Filtering for a predicate after keeping only its complement gives the
empty list. -/
theorem filter_erase_nil (p : Follow → Bool) (l : List Follow) :
    List.filter p (List.filter (fun f => !(p f)) l) = [] := by
  induction l with
  | nil => rfl
  | cons f t ih =>
    cases hf : p f <;> simp [List.filter_cons, hf, ih]

/-- Deleting the matching edges leaves a zero count, whatever the list was. -/
theorem countFollow_after_erase (l : List Follow) (u a : Nat) :
    (List.filter (fun f => f.user == u && f.author == a)
      (List.filter (fun f => !(f.user == u && f.author == a)) l)).length = 0 := by
  rw [show List.filter (fun f => f.user == u && f.author == a)
        (List.filter (fun f => !(f.user == u && f.author == a)) l) = [] from
      filter_erase_nil (fun f => f.user == u && f.author == a) l]
  rfl

/-- Claim C1: for every user `u`, the following feed contains exactly the
posts whose author is followed by `u` — every post whose author `u` follows
and no post whose author `u` does not follow — ordered newest first. -/
theorem follow_index_exact (db : DB) (u : Nat) :
    (∀ p : Post, p ∈ follow_index_posts db u ↔
      p ∈ db.posts ∧ ∃ f ∈ db.follows, f.user = u ∧ f.author = p.author)
    ∧ List.Sorted newerFirst (follow_index_posts db u) := by
  constructor
  · intro p
    unfold follow_index_posts orderByPubDateDesc followsOf
    rw [List.mem_insertionSort newerFirst, List.mem_filter]
    simp only [List.any_eq_true, List.mem_filter, beq_iff_eq]
    constructor
    · rintro ⟨hp, f, ⟨hf, hfu⟩, hfa⟩
      exact ⟨hp, f, hf, hfu, hfa⟩
    · rintro ⟨hp, f, hf, hfu, hfa⟩
      exact ⟨hp, f, ⟨hf, hfu⟩, hfa⟩
  · exact List.sorted_insertionSort newerFirst _

/-- Claim C3: creating a `Post` at the persistence boundary fails with a
`ValidationError` whenever the text is empty or the author is absent, and no
`Post` record is stored in either case (no database state is produced). -/
theorem create_post_rejects (db : DB) (text : String) (author : Option Nat)
    (group : Option Nat) (image : Option String)
    (h : text = "" ∨ author = none) :
    (∃ e, create_post db text author group image = Except.error e)
    ∧ ∀ db2, create_post db text author group image ≠ Except.ok db2 := by
  rcases h with h | h
  · subst h
    exact ⟨⟨ValidationError.required, by simp [create_post]⟩,
           fun db2 => by simp [create_post]⟩
  · subst h
    by_cases ht : text = ""
    · exact ⟨⟨ValidationError.required, by simp [create_post, ht]⟩,
             fun db2 => by simp [create_post, ht]⟩
    · exact ⟨⟨ValidationError.nullAuthor, by simp [create_post, ht]⟩,
             fun db2 => by simp [create_post, ht]⟩

/-- Witness for C3 at a concrete input: empty text with a present author. -/
theorem create_post_rejects_witness :
    (("" : String) = "" ∨ (some 1 : Option Nat) = none)
    ∧ ((∃ e, create_post ⟨[1], [], [], [], [], 0⟩ "" (some 1) none none
          = Except.error e)
       ∧ ∀ db2, create_post ⟨[1], [], [], [], [], 0⟩ "" (some 1) none none
          ≠ Except.ok db2) :=
  ⟨Or.inl rfl,
   create_post_rejects ⟨[1], [], [], [], [], 0⟩ "" (some 1) none none (Or.inl rfl)⟩

/-- Claim C5: self-follow is a no-op — `follow(u, u)` returns the unchanged
state (and never raises) — and the follow operation never produces a state
with a self-edge from any state that has none. -/
theorem profile_follow_self_noop (db : DB) (u : Nat) (hu : u ∈ db.users) :
    profile_follow db u u = some db
    ∧ ∀ v a db2, (∀ f ∈ db.follows, f.user ≠ f.author) →
        profile_follow db v a = some db2 → ∀ f ∈ db2.follows, f.user ≠ f.author := by
  constructor
  · simp [profile_follow, hu]
  · intro v a db2 hinv heq f hf
    unfold profile_follow at heq
    by_cases ha : a ∈ db.users
    · rw [if_pos ha, Option.some.injEq] at heq
      by_cases hc : follow_exists db v a = false ∧ a ≠ v
      · rw [if_pos hc] at heq
        subst heq
        simp only [List.mem_append, List.mem_singleton] at hf
        rcases hf with hf | hf
        · exact hinv f hf
        · subst hf
          exact fun hcontra => hc.2 hcontra.symm
      · rw [if_neg hc] at heq
        subst heq
        exact hinv f hf
    · rw [if_neg ha] at heq
      exact absurd heq (by simp)

/-- Witness for C5 at a concrete state: one user, no follow edges. -/
theorem profile_follow_self_noop_witness :
    (1 ∈ ([1] : List Nat))
    ∧ (profile_follow ⟨[1], [], [], [], [], 0⟩ 1 1 = some ⟨[1], [], [], [], [], 0⟩
       ∧ ∀ v a db2,
          (∀ f ∈ (⟨[1], [], [], [], [], 0⟩ : DB).follows, f.user ≠ f.author) →
          profile_follow ⟨[1], [], [], [], [], 0⟩ v a = some db2 →
          ∀ f ∈ db2.follows, f.user ≠ f.author) :=
  ⟨by decide, profile_follow_self_noop ⟨[1], [], [], [], [], 0⟩ 1 (by decide)⟩

/-- Claim C6: deleting a user deletes every post authored by that user, every
comment authored by that user, and every follow edge with that user at either
end: no such record survives in the resulting state. -/
theorem delete_user_cascades (db : DB) (u : Nat) :
    (∀ p ∈ (delete_user db u).posts, p.author ≠ u)
    ∧ (∀ c ∈ (delete_user db u).comments, c.author ≠ u)
    ∧ (∀ f ∈ (delete_user db u).follows, f.user ≠ u ∧ f.author ≠ u) := by
  refine ⟨fun p hp => ?_, fun c hc => ?_, fun f hf => ?_⟩
  · have := (List.mem_filter.mp hp).2
    simpa using this
  · have := (List.mem_filter.mp hc).2
    simp only [Bool.and_eq_true, Bool.not_eq_true', beq_eq_false_iff_ne] at this
    exact this.1
  · have := (List.mem_filter.mp hf).2
    simp only [Bool.and_eq_true, Bool.not_eq_true', beq_eq_false_iff_ne] at this
    exact this

/-- Claim C7: deleting a group deletes no post — the post list keeps its
length and order, every field other than the group reference is unchanged,
and exactly the posts that referenced the deleted group end with an empty
group reference. -/
theorem delete_group_keeps_posts (db : DB) (g : Nat) :
    (delete_group db g).posts.length = db.posts.length
    ∧ (delete_group db g).posts.map Post.id = db.posts.map Post.id
    ∧ (delete_group db g).posts.map Post.text = db.posts.map Post.text
    ∧ (delete_group db g).posts.map Post.pub_date = db.posts.map Post.pub_date
    ∧ (delete_group db g).posts.map Post.author = db.posts.map Post.author
    ∧ (delete_group db g).posts.map Post.image = db.posts.map Post.image
    ∧ (delete_group db g).posts.map Post.group
        = db.posts.map (fun p => if p.group = some g then none else p.group) := by
  refine ⟨?_, ?_, ?_, ?_, ?_, ?_, ?_⟩ <;>
    · simp only [delete_group, List.map_map, List.length_map]
      try
        refine List.map_congr_left (fun p _ => ?_)
        by_cases hp : p.group = some g <;> simp [hp]

/-- Claim C4: for distinct users, `follow` twice leaves exactly one edge, and
`unfollow` twice leaves zero edges and never fails, including when the edge
is already absent. The edge-count hypothesis is the `unique_together`
constraint on `Follow` that every stored state satisfies. -/
theorem follow_unfollow_idempotent (db : DB) (u a : Nat)
    (hne : u ≠ a) (ha : a ∈ db.users) (hcount : countFollow db u a ≤ 1) :
    (∃ db1 db2, profile_follow db u a = some db1
      ∧ profile_follow db1 u a = some db2
      ∧ countFollow db1 u a = 1 ∧ countFollow db2 u a = 1)
    ∧ (∃ db3 db4, profile_unfollow db u a = some db3
      ∧ profile_unfollow db3 u a = some db4
      ∧ countFollow db3 u a = 0 ∧ countFollow db4 u a = 0) := by
  constructor
  · by_cases he : follow_exists db u a = true
    · have h1 : countFollow db u a = 1 :=
        Nat.le_antisymm hcount ((follow_exists_iff db u a).mp he)
      refine ⟨db, db, ?_, ?_, h1, h1⟩ <;>
        simp [profile_follow, ha, he]
    · have h0 : countFollow db u a = 0 := by
        rcases Nat.eq_zero_or_pos (countFollow db u a) with h | h
        · exact h
        · exact absurd ((follow_exists_iff db u a).mpr h) he
      have hef : follow_exists db u a = false := by
        simpa using he
      set db1 : DB :=
        { db with follows := db.follows ++ [{ author := a, user := u }] } with hdb1
      have hc1 : countFollow db1 u a = 1 := by
        rw [hdb1, countFollow_append_self, h0]
      have he1 : follow_exists db1 u a = true :=
        (follow_exists_iff db1 u a).mpr (by omega)
      refine ⟨db1, db1, ?_, ?_, hc1, hc1⟩
      · simp [profile_follow, ha, hef, Ne.symm hne, hdb1]
      · have ha1 : a ∈ db1.users := ha
        simp [profile_follow, ha1, he1]
  · set db3 : DB :=
      { db with
        follows := db.follows.filter (fun f => !(f.user == u && f.author == a)) }
      with hdb3
    have hc3 : countFollow db3 u a = 0 := by
      rw [hdb3]
      exact countFollow_after_erase db.follows u a
    have ha3 : a ∈ db3.users := ha
    set db4 : DB :=
      { db3 with
        follows := db3.follows.filter (fun f => !(f.user == u && f.author == a)) }
      with hdb4
    have hc4 : countFollow db4 u a = 0 := by
      rw [hdb4]
      exact countFollow_after_erase db3.follows u a
    exact ⟨db3, db4, by simp [profile_unfollow, ha, hdb3],
           by simp [profile_unfollow, ha3, hdb4], hc3, hc4⟩

/-- Witness for C4 at a concrete state: users 1 and 2, no edge yet. -/
theorem follow_unfollow_idempotent_witness :
    ((1 : Nat) ≠ 2 ∧ 2 ∈ ([1, 2] : List Nat)
      ∧ countFollow ⟨[1, 2], [], [], [], [], 0⟩ 1 2 ≤ 1)
    ∧ ((∃ db1 db2, profile_follow ⟨[1, 2], [], [], [], [], 0⟩ 1 2 = some db1
        ∧ profile_follow db1 1 2 = some db2
        ∧ countFollow db1 1 2 = 1 ∧ countFollow db2 1 2 = 1)
      ∧ (∃ db3 db4, profile_unfollow ⟨[1, 2], [], [], [], [], 0⟩ 1 2 = some db3
        ∧ profile_unfollow db3 1 2 = some db4
        ∧ countFollow db3 1 2 = 0 ∧ countFollow db4 1 2 = 0)) :=
  ⟨⟨by decide, by decide, by decide⟩,
   follow_unfollow_idempotent ⟨[1, 2], [], [], [], [], 0⟩ 1 2
     (by decide) (by decide) (by decide)⟩

/-- Claim C10 fails on the code: on a state with user 1 and their post 1, a
request to view that post whose body carries the non-empty comment text
"nice" reaches the `is_valid` branch of `post_view`, whose function body has
no `return` statement there, so the view produces no response at all (Django
raises "view didn't return an HttpResponse" and the request crashes with a
server error instead of receiving a typed result). -/
theorem post_view_missing_response :
    post_view dbOnePost 1 1 (some "nice") = ViewResult.missingResponse := by
  decide

/-- Claim C8 fails as stated: the parameter 0 is not a valid 1-based page
reference, yet on a feed of eleven posts (two pages) `get_page` sends it to
the last page, page 2, not to the first page. -/
theorem page_zero_goes_last :
    specPageParamValid (PageParam.int 0) = false
    ∧ (index dbElevenPosts (PageParam.int 0)).num_pages = 2
    ∧ (index dbElevenPosts (PageParam.int 0)).number = 2
    ∧ (index dbElevenPosts (PageParam.int 0)).number ≠ 1 := by
  decide

/-- Claim C8, amended: a page number beyond the last page returns the last
valid page; an absent or non-integer page parameter returns the first page;
an integer page parameter outside the valid range (below 1 as well as beyond
the last page) returns the last valid page; pages hold at most 10 posts; no
input produces an error. -/
theorem get_page_clamps (ps : List Post) (param : PageParam) :
    ((param = PageParam.absent ∨ param = PageParam.notAnInteger) →
      (get_page ps 10 param).number = 1)
    ∧ (∀ n : Int, param = PageParam.int n →
        ((n < 1 ∨ (numPages ps.length 10 : Int) < n) →
          (get_page ps 10 param).number = numPages ps.length 10)
        ∧ (1 ≤ n → n ≤ (numPages ps.length 10 : Int) →
          (get_page ps 10 param).number = n.toNat))
    ∧ (get_page ps 10 param).object_list.length ≤ 10
    ∧ (get_page ps 10 param).num_pages = numPages ps.length 10 := by
  refine ⟨?_, ?_, ?_, rfl⟩
  · rintro (rfl | rfl) <;> rfl
  · rintro n rfl
    have hnp : 1 ≤ numPages ps.length 10 := Nat.le_max_left 1 _
    constructor
    · rintro (h | h)
      · simp [get_page, getPageNumber, h]
      · have h1 : ¬ n < 1 := by
          have hcast : (1 : Int) ≤ (numPages ps.length 10 : Int) := by
            exact_mod_cast hnp
          omega
        simp [get_page, getPageNumber, h1, h]
    · intro hge hle
      have h1 : ¬ n < 1 := by omega
      have h2 : ¬ (numPages ps.length 10 : Int) < n := not_lt.mpr hle
      simp [get_page, getPageNumber, h1, h2]
  · show ((ps.drop _).take 10).length ≤ 10
    rw [List.length_take]
    exact min_le_left _ _

/-- Witness for C8 (amended) on a concrete feed: eleven posts, so page 99 is
beyond the last page and is clamped to the last page, page 2. -/
theorem get_page_clamps_witness :
    (PageParam.int 99 = PageParam.int 99)
    ∧ ((99 : Int) < 1 ∨ (numPages dbElevenPosts.posts.length 10 : Int) < 99)
    ∧ (get_page dbElevenPosts.posts 10 (PageParam.int 99)).number
        = numPages dbElevenPosts.posts.length 10 :=
  ⟨rfl, Or.inr (by decide),
   ((get_page_clamps dbElevenPosts.posts (PageParam.int 99)).2.1 99 rfl).1
     (Or.inr (by decide))⟩

/-- Claim C9: on an existing post, `add_comment` with empty text hits the
form's `ValidationError` and leaves the comment table (so the comment count)
unchanged, while with non-empty text it appends exactly one comment owned by
the requesting author, linked to the given post, stamped with the creation
clock. -/
theorem add_comment_spec (db : DB) (u username post_id : Nat) (t : String)
    (hpost : db.posts.any (fun p => p.id == post_id && p.author == username)
      = true) :
    (clean_required_text (some "") = Except.error ValidationError.required
      ∧ add_comment db u username post_id (some "") = some db)
    ∧ (strip t ≠ "" →
        ∃ db2 c, add_comment db u username post_id (some t) = some db2
          ∧ db2.comments = db.comments ++ [c]
          ∧ db2.comments.length = db.comments.length + 1
          ∧ c.author = u ∧ c.post = post_id ∧ c.created = db.clock) := by
  have hemp : clean_required_text (some "") = Except.error ValidationError.required :=
    rfl
  constructor
  · exact ⟨hemp, by simp [add_comment, hpost, hemp]⟩
  · intro ht
    have hcl : clean_required_text (some t) = Except.ok (strip t) := by
      simp [clean_required_text, ht]
    refine ⟨{ db with
              comments := db.comments ++
                [{ id := db.clock, post := post_id, author := u,
                   text := strip t, created := db.clock }]
              clock := db.clock + 1 },
            { id := db.clock, post := post_id, author := u, text := strip t,
              created := db.clock },
            ?_, rfl, by simp, rfl, rfl, rfl⟩
    simp [add_comment, hpost, hcl]

/-- Witness for C9 on a concrete state: post 1 by user 1 exists, and user 2
comments with the non-empty text "ok" and with the empty text. -/
theorem add_comment_spec_witness :
    (dbOnePost.posts.any (fun p => p.id == 1 && p.author == 1) = true)
    ∧ ((clean_required_text (some "") = Except.error ValidationError.required
        ∧ add_comment dbOnePost 2 1 1 (some "") = some dbOnePost)
      ∧ (strip "ok" ≠ "" →
          ∃ db2 c, add_comment dbOnePost 2 1 1 (some "ok") = some db2
            ∧ db2.comments = dbOnePost.comments ++ [c]
            ∧ db2.comments.length = dbOnePost.comments.length + 1
            ∧ c.author = 2 ∧ c.post = 1 ∧ c.created = dbOnePost.clock)) :=
  ⟨by decide, add_comment_spec dbOnePost 2 1 1 "ok" (by decide)⟩

/-- Taking the first page slice does not change the head of the list. -/
theorem head_of_take10 (l : List Post) : (l.take 10).head? = l.head? := by
  cases l <;> rfl

/-- With no page parameter the global feed shows page 1, whose first entry is
the head of the full newest-first list. -/
theorem index_absent_head (db : DB) :
    (index db PageParam.absent).object_list.head?
      = (orderByPubDateDesc db.posts).head? := by
  show (((orderByPubDateDesc db.posts).drop ((1 - 1) * 10)).take 10).head?
      = (orderByPubDateDesc db.posts).head?
  rw [show (1 - 1) * 10 = 0 from rfl, List.drop_zero, head_of_take10]

/-- The head of the newest-first ordering is the strictly newest post. -/
theorem head_orderByPubDateDesc (ps : List Post) (p : Post) (hp : p ∈ ps)
    (hmax : ∀ q ∈ ps, q.pub_date < p.pub_date ∨ q = p) :
    (orderByPubDateDesc ps).head? = some p := by
  cases hl : orderByPubDateDesc ps with
  | nil =>
    have hmem : p ∈ orderByPubDateDesc ps :=
      (List.mem_insertionSort newerFirst).mpr hp
    rw [hl] at hmem
    exact absurd hmem (List.not_mem_nil p)
  | cons x xs =>
    have hxmem : x ∈ ps := by
      have hx : x ∈ orderByPubDateDesc ps := by
        rw [hl]; exact List.mem_cons_self x xs
      exact (List.mem_insertionSort newerFirst).mp hx
    have hsorted : List.Sorted newerFirst (x :: xs) := by
      rw [← hl]; exact List.sorted_insertionSort newerFirst ps
    have hpmem : p ∈ x :: xs := by
      rw [← hl]; exact (List.mem_insertionSort newerFirst).mpr hp
    have hxp : x = p := by
      rcases hmax x hxmem with hlt | heq
      · rcases List.mem_cons.mp hpmem with heq2 | hpx
        · subst heq2
          exact absurd hlt (lt_irrefl _)
        · have hle : newerFirst x p := (List.sorted_cons.mp hsorted).1 p hpx
          exact absurd (Nat.lt_of_le_of_lt hle hlt) (lt_irrefl _)
      · exact heq
    simp [hxp]

/-- Claim C2: with a valid text and group, `new_post` stores exactly one new
post whose author is the requester and whose creation timestamp is the
current clock, assigned once at creation — no later `post_edit` ever changes
any stored `pub_date` — and the global feed immediately lists the new post
first under the newest-first ordering. -/
theorem new_post_spec (db : DB) (u : Nat) (t : String) (g : Option Nat)
    (img : Option String) (tc : String) (gc : Option Nat)
    (hwf : ∀ p ∈ db.posts, p.pub_date < db.clock)
    (htext : clean_required_text (some t) = Except.ok tc)
    (hgroup : clean_group db g = Except.ok gc) :
    (∃ np : Post,
      (new_post db u (some t) g img).posts = db.posts ++ [np]
      ∧ np.author = u ∧ np.pub_date = db.clock
      ∧ (index (new_post db u (some t) g img) PageParam.absent).object_list.head?
          = some np)
    ∧ ∀ db2 v w pid t2 g2 i2,
        (post_edit db2 v w pid t2 g2 i2).posts.map Post.pub_date
          = db2.posts.map Post.pub_date := by
  have hdb : new_post db u (some t) g img =
      { db with
        posts := db.posts ++
          [{ id := db.clock, text := tc, pub_date := db.clock, author := u,
             group := gc, image := img }]
        clock := db.clock + 1 } := by
    unfold new_post
    rw [htext, hgroup]
  constructor
  · refine ⟨{ id := db.clock, text := tc, pub_date := db.clock, author := u,
              group := gc, image := img }, ?_, rfl, rfl, ?_⟩
    · rw [hdb]
    · rw [hdb, index_absent_head]
      apply head_orderByPubDateDesc
      · exact List.mem_append_right _ (List.mem_singleton_self _)
      · intro q hq
        rcases List.mem_append.mp hq with hq | hq
        · exact Or.inl (hwf q hq)
        · exact Or.inr (List.mem_singleton.mp hq)
  · intro db2 v w pid t2 g2 i2
    unfold post_edit
    split
    · rfl
    · split
      · simp only [List.map_map]
        refine List.map_congr_left (fun p _ => ?_)
        simp only [Function.comp_apply]
        split <;> rfl
      · rfl

/-- Witness for C2 on a concrete state: user 1 publishes "hi" into an empty
database. -/
theorem new_post_spec_witness :
    (∀ p ∈ (⟨[1], [], [], [], [], 0⟩ : DB).posts, p.pub_date < 0)
    ∧ clean_required_text (some "hi") = Except.ok "hi"
    ∧ clean_group ⟨[1], [], [], [], [], 0⟩ none = Except.ok none
    ∧ ((∃ np : Post,
        (new_post ⟨[1], [], [], [], [], 0⟩ 1 (some "hi") none none).posts
            = (⟨[1], [], [], [], [], 0⟩ : DB).posts ++ [np]
        ∧ np.author = 1 ∧ np.pub_date = 0
        ∧ (index (new_post ⟨[1], [], [], [], [], 0⟩ 1 (some "hi") none none)
            PageParam.absent).object_list.head? = some np)
      ∧ ∀ db2 v w pid t2 g2 i2,
          (post_edit db2 v w pid t2 g2 i2).posts.map Post.pub_date
            = db2.posts.map Post.pub_date) :=
  ⟨by decide, rfl, rfl,
   new_post_spec ⟨[1], [], [], [], [], 0⟩ 1 "hi" none none "hi" none
     (by decide) rfl rfl⟩
